import Mathlib

/-
Verification of the extraction / enrichment pipeline of `orgo_agent.py`
(class `SolarCalcOrgo`).  The Python functions modelled here are:

  * `extract_solar_and_geo_data`  (lines 250-393): a two-tier regular
    expression extraction of latitude, longitude, annual production and
    irradiation from a transcript, with bounds checks and a completeness
    status;
  * `get_electricity_cost`        (lines 67-94): exact then substring
    fuzzy lookup of a country's electricity cost, preferring the 2024
    figure over the 2022 one;
  * `get_country_from_coordinates` (lines 41-65): reverse geocoding whose
    failures all collapse to `None`;
  * the enrichment step of `calculate_solar_potential` (lines 226-239).

The regular expressions of the source are embedded by a small backtracking
matcher (`mtch` below) whose alternative order mimics Python's `re` module:
alternations try the left branch first, greedy quantifiers try the longest
repetition first, lazy quantifiers the shortest.  Every quantifier in the
source's patterns ranges over a single-character class, so the matcher's
star only repeats character classes and is structurally terminating.
Numeric values are modelled as rationals: every literal the patterns can
capture is a finite decimal string, which `float()` parses exactly enough
for the comparisons (`> 0`, interval bounds) the source performs.
-/

/-! ### Character classes used by the source's patterns -/

/-- `[0-9]` as a character test. -/
def isDigitCh (c : Char) : Bool := 48 ≤ c.toNat && c.toNat ≤ 57

/-- `[0-9.-]` : digits, the dot and the dash (the dash is literal at the end
of the class). -/
def isNumCh (c : Char) : Bool := isDigitCh c || c = '.' || c = '-'

/-- Python `\s` restricted to the characters that can occur here: the six
ASCII whitespace characters (space, tab, newline, carriage return, vertical
tab, form feed). -/
def isSpaceCh (c : Char) : Bool := c.toNat = 32 || (9 ≤ c.toNat && c.toNat ≤ 13)

/-- `.` under `re.DOTALL`: any character. -/
def anyCh (_ : Char) : Bool := true

/-- `.` without `re.DOTALL`: any character but a newline. -/
def notNewlineCh (c : Char) : Bool := c ≠ '\n'

/-- The single character `.` (used for the `\.` escapes). -/
def isDotCh (c : Char) : Bool := c = '.'

/-- ASCII lowercasing of one character, as Python's `str.lower()` acts on
the ASCII range (the only range the patterns contain; `²` lowercases to
itself). -/
def toLowerCh (c : Char) : Char :=
  if 65 ≤ c.toNat ∧ c.toNat ≤ 90 then Char.ofNat (c.toNat + 32) else c

/-- `str.lower()` of a string, as the character list the matcher works on. -/
def lowerChars (s : String) : List Char := s.toList.map toLowerCh

/-! ### A backtracking regular-expression matcher -/

/-- Regular expressions as the source's patterns need them.  Quantifiers
(`starC`, `plusC`, `lazyC`, `repC`) repeat a single-character class, which
is how every quantifier of the source's patterns is used. -/
inductive RE where
  | lit   : List Char → RE
  | cls   : (Char → Bool) → RE
  | starC : (Char → Bool) → RE
  | plusC : (Char → Bool) → RE
  | lazyC : (Char → Bool) → RE
  | repC  : (Char → Bool) → Nat → Nat → RE
  | opt   : RE → RE
  | alt   : RE → RE → RE
  | cat   : RE → RE → RE
  | grp   : Nat → RE → RE

/-- Captured groups of one match: group number paired with captured text. -/
abbrev Caps : Type := List (Nat × List Char)

/-- Length of the longest prefix of `s` whose characters satisfy `p`. -/
def takeRun (p : Char → Bool) : List Char → Nat
  | [] => 0
  | c :: r => if p c then takeRun p r + 1 else 0

/-- Strip a literal prefix, returning the remainder on success. -/
def stripLit : List Char → List Char → Option (List Char)
  | [], s => some s
  | _ :: _, [] => none
  | c :: cs, x :: xs => if c = x then stripLit cs xs else none

/-- Greedy repetition: try consuming `i` characters first, then fewer,
down to zero. -/
def greedyFrom {β : Type} (s : List Char) (caps : Caps)
    (k : List Char → Caps → Option β) : Nat → Option β
  | 0 => k s caps
  | i + 1 =>
    match k (s.drop (i + 1)) caps with
    | some r => some r
    | none => greedyFrom s caps k i

/-- Greedy repetition with at least one character. -/
def greedyFrom1 {β : Type} (s : List Char) (caps : Caps)
    (k : List Char → Caps → Option β) : Nat → Option β
  | 0 => none
  | i + 1 =>
    match k (s.drop (i + 1)) caps with
    | some r => some r
    | none => greedyFrom1 s caps k i

/-- Lazy repetition: try consuming `i` characters, then one more, while
`fuel` lasts. -/
def lazyTry {β : Type} (s : List Char) (caps : Caps)
    (k : List Char → Caps → Option β) : Nat → Nat → Option β
  | 0, _ => none
  | fuel + 1, i =>
    match k (s.drop i) caps with
    | some r => some r
    | none => lazyTry s caps k fuel (i + 1)

/-- Bounded greedy repetition `{lo,·}`: try consuming `i` characters, then
fewer, stopping above `lo`. -/
def repTry {β : Type} (s : List Char) (caps : Caps)
    (k : List Char → Caps → Option β) (lo : Nat) : Nat → Option β
  | 0 => if lo = 0 then k s caps else none
  | i + 1 =>
    if i + 1 < lo then none
    else
      match k (s.drop (i + 1)) caps with
      | some r => some r
      | none => repTry s caps k lo i

/-- The matcher, in continuation style: `mtch r s caps k` tries to match
`r` against a prefix of `s`, calling `k` on the remainder and extended
captures; alternatives are tried in Python's backtracking order and the
first success wins. -/
def mtch {β : Type} : RE → List Char → Caps → (List Char → Caps → Option β) → Option β
  | .lit cs, s, caps, k =>
    match stripLit cs s with
    | some s' => k s' caps
    | none => none
  | .cls p, s, caps, k =>
    match s with
    | [] => none
    | c :: r => if p c then k r caps else none
  | .starC p, s, caps, k => greedyFrom s caps k (takeRun p s)
  | .plusC p, s, caps, k => greedyFrom1 s caps k (takeRun p s)
  | .lazyC p, s, caps, k => lazyTry s caps k (takeRun p s + 1) 0
  | .repC p lo hi, s, caps, k => repTry s caps k lo (min hi (takeRun p s))
  | .opt a, s, caps, k =>
    match mtch a s caps k with
    | some r => some r
    | none => k s caps
  | .alt a b, s, caps, k =>
    match mtch a s caps k with
    | some r => some r
    | none => mtch b s caps k
  | .cat a b, s, caps, k => mtch a s caps fun s' c' => mtch b s' c' k
  | .grp n a, s, caps, k =>
    mtch a s caps fun s' c' => k s' ((n, s.take (s.length - s'.length)) :: c')

/-- One match attempt anchored at the start of `s`: the suffix left over
and the captures. -/
def matchHere (r : RE) (s : List Char) : Option (List Char × Caps) :=
  mtch r s [] fun s' caps => some (s', caps)

/-- `re.search`: try each start position left to right, return the captures
of the first (leftmost) match. -/
def searchFuel (r : RE) : Nat → List Char → Option Caps
  | 0, _ => none
  | fuel + 1, s =>
    match matchHere r s with
    | some (_, caps) => some caps
    | none =>
      match s with
      | [] => none
      | _ :: t => searchFuel r fuel t

/-- Leftmost search over the whole string. -/
def reSearch (r : RE) (s : List Char) : Option Caps :=
  searchFuel r (s.length + 1) s

/-- `re.findall`: scan left to right collecting non-overlapping matches,
resuming after the end of each match. -/
def findAllFuel (r : RE) : Nat → List Char → List Caps
  | 0, _ => []
  | fuel + 1, s =>
    match matchHere r s with
    | some (s', caps) =>
      if s'.length < s.length then caps :: findAllFuel r fuel s'
      else
        caps :: (match s with
          | [] => []
          | _ :: t => findAllFuel r fuel t)
    | none =>
      match s with
      | [] => []
      | _ :: t => findAllFuel r fuel t

/-- All matches of `r` in `s`. -/
def reFindAll (r : RE) (s : List Char) : List Caps :=
  findAllFuel r (s.length + 1) s

/-- The text captured by group `n` (empty when the group is absent). -/
def grpGet (caps : Caps) (n : Nat) : List Char :=
  match caps.find? (fun p => p.1 = n) with
  | some p => p.2
  | none => []

/-! ### Python `float()` on the strings the patterns can capture -/

/-- Numeric value of a digit string read left to right. -/
def digitsToNat : List Char → Nat :=
  List.foldl (fun a c => 10 * a + (c.toNat - 48)) 0

/-- Python `float()` restricted to strings over digits, `.` and `-` (the
alphabet of the capturing groups): an optional leading minus sign, then
digits with at most one dot and at least one digit.  Anything else raises
`ValueError` in Python, which the model returns as `none`. -/
def pyFloat (s : List Char) : Option ℚ :=
  let neg : Bool := s.head? = some '-'
  let body := if neg then s.tail else s
  if body = [] then none
  else if body.any (fun c => c = '-') then none
  else
    let ip := body.takeWhile (fun c => c ≠ '.')
    let rest := body.dropWhile (fun c => c ≠ '.')
    match rest with
    | [] =>
      if ip.all isDigitCh then
        some (mkRat (if neg then -(digitsToNat ip : ℤ) else (digitsToNat ip : ℤ)) 1)
      else none
    | _ :: fp =>
      if fp.any (fun c => c = '.') then none
      else if ip.all isDigitCh && fp.all isDigitCh && (ip ≠ [] ∨ fp ≠ []) then
        let n : ℤ := digitsToNat ip * 10 ^ fp.length + digitsToNat fp
        some (mkRat (if neg then -n else n) (10 ^ fp.length))
      else none

/-! ### The source's patterns (lines 274-278, 309-314, 332-338, 355-361)

The transcript is lowercased before matching (line 265), and the patterns
themselves are written in lowercase in the source. -/

/-- Concatenation of a pattern list (an empty list is the empty pattern). -/
def seqRE (rs : List RE) : RE := rs.foldr RE.cat (RE.lit [])

/-- A literal string pattern. -/
def lits (s : String) : RE := RE.lit s.toList

/-- `[0-9]+\.?[0-9]*` — the numeric group of the production and
irradiation patterns. -/
def numGroupRE : RE := seqRE [.plusC isDigitCh, .opt (.cls isDotCh), .starC isDigitCh]

/-- Line 275: `extracted\s+data:.*?coordinates:\s*([0-9.-]+),\s*([0-9.-]+)`
`.*?production:\s*([0-9]+\.?[0-9]*)\s*kwh.*?irradiation:`
`\s*([0-9]+\.?[0-9]*)\s*kwh/m²`, compiled with `re.DOTALL`. -/
def formattedRE : RE := seqRE
  [lits "extracted", .plusC isSpaceCh, lits "data:", .lazyC anyCh,
   lits "coordinates:", .starC isSpaceCh, .grp 1 (.plusC isNumCh),
   lits ",", .starC isSpaceCh, .grp 2 (.plusC isNumCh),
   .lazyC anyCh, lits "production:", .starC isSpaceCh, .grp 3 numGroupRE,
   .starC isSpaceCh, lits "kwh",
   .lazyC anyCh, lits "irradiation:", .starC isSpaceCh, .grp 4 numGroupRE,
   .starC isSpaceCh, lits "kwh/m²"]

/-- Line 310: `selected:\s*([0-9.-]+),\s*([0-9.-]+)`. -/
def coordP1 : RE := seqRE
  [lits "selected:", .starC isSpaceCh, .grp 1 (.plusC isNumCh),
   lits ",", .starC isSpaceCh, .grp 2 (.plusC isNumCh)]

/-- Line 311: `coordinates:\s*([0-9.-]+),\s*([0-9.-]+)`. -/
def coordP2 : RE := seqRE
  [lits "coordinates:", .starC isSpaceCh, .grp 1 (.plusC isNumCh),
   lits ",", .starC isSpaceCh, .grp 2 (.plusC isNumCh)]

/-- Line 312: `lat:\s*([0-9.-]+).*?lon:\s*([0-9.-]+)` (no DOTALL: `.`
does not cross a newline). -/
def coordP3 : RE := seqRE
  [lits "lat:", .starC isSpaceCh, .grp 1 (.plusC isNumCh),
   .lazyC notNewlineCh, lits "lon:", .starC isSpaceCh, .grp 2 (.plusC isNumCh)]

/-- Line 313: `([0-9]{1,2}\.[0-9]+),\s*([0-9.-]+\.[0-9]+)`. -/
def coordP4 : RE := seqRE
  [.grp 1 (seqRE [.repC isDigitCh 1 2, .cls isDotCh, .plusC isDigitCh]),
   lits ",", .starC isSpaceCh,
   .grp 2 (seqRE [.plusC isNumCh, .cls isDotCh, .plusC isDigitCh])]

/-- The ordered coordinate fallback patterns (lines 309-314). -/
def coordPatterns : List RE := [coordP1, coordP2, coordP3, coordP4]

/-- Line 333: `yearly\s+pv\s+energy\s+production\s*\[kwh\]:\s*(num)`. -/
def prodP1 : RE := seqRE
  [lits "yearly", .plusC isSpaceCh, lits "pv", .plusC isSpaceCh,
   lits "energy", .plusC isSpaceCh, lits "production", .starC isSpaceCh,
   lits "[kwh]:", .starC isSpaceCh, .grp 1 numGroupRE]

/-- Line 334: `production\s*\[kwh\]:\s*(num)`. -/
def prodP2 : RE := seqRE
  [lits "production", .starC isSpaceCh, lits "[kwh]:", .starC isSpaceCh,
   .grp 1 numGroupRE]

/-- Line 335: `energy\s+production\s*:\s*(num)`. -/
def prodP3 : RE := seqRE
  [lits "energy", .plusC isSpaceCh, lits "production", .starC isSpaceCh,
   lits ":", .starC isSpaceCh, .grp 1 numGroupRE]

/-- Line 336: `production:\s*(num)`. -/
def prodP4 : RE := seqRE [lits "production:", .starC isSpaceCh, .grp 1 numGroupRE]

/-- Line 337: `(num)\s*kwh(?:/year|/an)?` — the loose "number followed by
kWh" fallback. -/
def prodP5 : RE := seqRE
  [.grp 1 numGroupRE, .starC isSpaceCh, lits "kwh",
   .opt (.alt (lits "/year") (lits "/an"))]

/-- The ordered production fallback patterns (lines 332-338). -/
def productionPatterns : List RE := [prodP1, prodP2, prodP3, prodP4, prodP5]

/-- Line 356: `yearly\s+in-plane\s+irradiation\s*\[kwh/m²\]:\s*(num)`. -/
def irrP1 : RE := seqRE
  [lits "yearly", .plusC isSpaceCh, lits "in-plane", .plusC isSpaceCh,
   lits "irradiation", .starC isSpaceCh, lits "[kwh/m²]:", .starC isSpaceCh,
   .grp 1 numGroupRE]

/-- Line 357: `irradiation\s*\[kwh/m²\]:\s*(num)`. -/
def irrP2 : RE := seqRE
  [lits "irradiation", .starC isSpaceCh, lits "[kwh/m²]:", .starC isSpaceCh,
   .grp 1 numGroupRE]

/-- Line 358: `in-plane\s+irradiation\s*:\s*(num)`. -/
def irrP3 : RE := seqRE
  [lits "in-plane", .plusC isSpaceCh, lits "irradiation", .starC isSpaceCh,
   lits ":", .starC isSpaceCh, .grp 1 numGroupRE]

/-- Line 359: `(num)\s*kwh/m²`. -/
def irrP4 : RE := seqRE [.grp 1 numGroupRE, .starC isSpaceCh, lits "kwh/m²"]

/-- Line 360: `irradiation:\s*(num)`. -/
def irrP5 : RE := seqRE [lits "irradiation:", .starC isSpaceCh, .grp 1 numGroupRE]

/-- The ordered irradiation fallback patterns (lines 355-361). -/
def irradiationPatterns : List RE := [irrP1, irrP2, irrP3, irrP4, irrP5]

/-- `re.findall` with two groups: the list of captured pairs. -/
def findallPairs (r : RE) (t : List Char) : List (List Char × List Char) :=
  (reFindAll r t).map fun caps => (grpGet caps 1, grpGet caps 2)

/-- `re.findall` with one group: the list of captured strings. -/
def findallGroup (r : RE) (t : List Char) : List (List Char) :=
  (reFindAll r t).map fun caps => grpGet caps 1

/-! ### The solar record and the extraction pipeline -/

/-- The dictionary built at lines 254-263 of `extract_solar_and_geo_data`.
Optional numeric fields are `Option ℚ` (`None` = absent), `status` is the
Python status string. -/
structure SolarData where
  timestamp : String
  latitude : Option ℚ
  longitude : Option ℚ
  annual_production_kwh : Option ℚ
  irradiation_kwh_m2 : Option ℚ
  country : Option String
  electricity_cost_usd_kwh : Option ℚ
  status : String
deriving DecidableEq, Repr

/-- Python truthiness of an optional float: `None` and `0.0` are falsy,
every other value truthy. -/
def truthyQ : Option ℚ → Bool
  | none => false
  | some v => v ≠ 0

/-- The fresh record of lines 254-263: all fields absent, status
`"extraction_attempted"`, timestamp as handed in by the clock. -/
def initRecord (now : String) : SolarData :=
  { timestamp := now, latitude := none, longitude := none,
    annual_production_kwh := none, irradiation_kwh_m2 := none,
    country := none, electricity_cost_usd_kwh := none,
    status := "extraction_attempted" }

/-- Lines 287-298: the four values parsed from the structured block are
checked against their bounds — the coordinates as a pair, production and
irradiation each on their own — and the passing ones are written into the
record. -/
def structuredApply (d : SolarData) (lat lon prod irr : ℚ) : SolarData :=
  let d1 := if -90 ≤ lat ∧ lat ≤ 90 ∧ -180 ≤ lon ∧ lon ≤ 180 then
      { d with latitude := some lat, longitude := some lon } else d
  let d2 := if prod > 0 then { d1 with annual_production_kwh := some prod } else d1
  if irr > 0 then { d2 with irradiation_kwh_m2 := some irr } else d2

/-- Lines 318-327: the inner loop over one coordinate pattern's matches —
parse both captures (a `ValueError` skips the candidate), and on the first
pair inside bounds write both coordinates and break. -/
def coordInner (d : SolarData) : List (List Char × List Char) → SolarData
  | [] => d
  | (a, b) :: rest =>
    match pyFloat a, pyFloat b with
    | some lat, some lon =>
      if -90 ≤ lat ∧ lat ≤ 90 ∧ -180 ≤ lon ∧ lon ≤ 180 then
        { d with latitude := some lat, longitude := some lon }
      else coordInner d rest
    | _, _ => coordInner d rest

/-- Lines 316-329: the outer loop over the coordinate patterns, stopping
as soon as `solar_data['latitude']` is truthy. -/
def coordLoop (t : List Char) (d : SolarData) : List RE → SolarData
  | [] => d
  | p :: ps =>
    let d' := coordInner d (findallPairs p t)
    if truthyQ d'.latitude then d' else coordLoop t d' ps

/-- Lines 342-350: the inner loop over one production pattern's matches —
the first positive value is written and breaks. -/
def prodInner (d : SolarData) : List (List Char) → SolarData
  | [] => d
  | m :: rest =>
    match pyFloat m with
    | some v => if v > 0 then { d with annual_production_kwh := some v } else prodInner d rest
    | none => prodInner d rest

/-- Lines 340-352: the outer loop over the production patterns, stopping
as soon as `solar_data['annual_production_kwh']` is truthy. -/
def prodLoop (t : List Char) (d : SolarData) : List RE → SolarData
  | [] => d
  | p :: ps =>
    let d' := prodInner d (findallGroup p t)
    if truthyQ d'.annual_production_kwh then d' else prodLoop t d' ps

/-- Lines 365-373: the inner loop over one irradiation pattern's matches. -/
def irrInner (d : SolarData) : List (List Char) → SolarData
  | [] => d
  | m :: rest =>
    match pyFloat m with
    | some v => if v > 0 then { d with irradiation_kwh_m2 := some v } else irrInner d rest
    | none => irrInner d rest

/-- Lines 363-375: the outer loop over the irradiation patterns. -/
def irrLoop (t : List Char) (d : SolarData) : List RE → SolarData
  | [] => d
  | p :: ps =>
    let d' := irrInner d (findallGroup p t)
    if truthyQ d'.irradiation_kwh_m2 then d' else irrLoop t d' ps

/-- Lines 378-383: `found_items`, the number of truthy values among the
four core fields (Python counts `1 if solar_data[f] else 0`, so a field
holding `0.0` counts zero exactly like an absent one). -/
def foundItems (d : SolarData) : Nat :=
  (if truthyQ d.latitude then 1 else 0) +
  (if truthyQ d.longitude then 1 else 0) +
  (if truthyQ d.annual_production_kwh then 1 else 0) +
  (if truthyQ d.irradiation_kwh_m2 then 1 else 0)

/-- Lines 385-391: the status recomputation from `found_items`. -/
def setStatus (d : SolarData) : SolarData :=
  if foundItems d = 4 then { d with status := "completed" }
  else if foundItems d > 0 then { d with status := "partial" }
  else { d with status := "failed" }

/-- Lines 308-393: the per-field fallback tier — coordinates, production,
irradiation, then the status recomputation. -/
def fallbackTier (t : List Char) (d : SolarData) : SolarData :=
  setStatus (irrLoop t (prodLoop t (coordLoop t d coordPatterns) productionPatterns) irradiationPatterns)

/-- Lines 273-393 on the lowercased text: the structured tier first; when
it matches, all four captures are parsed (a `ValueError` in any of them
abandons the whole block, line 305), the parsed values go through
`structuredApply`, and if all four fields end up truthy the function
returns at line 303 with status `"completed"`.  Otherwise the fallback
tier runs.  The boolean records whether the fallback tier ran. -/
def extractCore (t : List Char) (d0 : SolarData) : SolarData × Bool :=
  match reSearch formattedRE t with
  | some caps =>
    match pyFloat (grpGet caps 1), pyFloat (grpGet caps 2),
          pyFloat (grpGet caps 3), pyFloat (grpGet caps 4) with
    | some lat, some lon, some prod, some irr =>
      if truthyQ (structuredApply d0 lat lon prod irr).latitude &&
         truthyQ (structuredApply d0 lat lon prod irr).longitude &&
         truthyQ (structuredApply d0 lat lon prod irr).annual_production_kwh &&
         truthyQ (structuredApply d0 lat lon prod irr).irradiation_kwh_m2 then
        ({ structuredApply d0 lat lon prod irr with status := "completed" }, false)
      else (fallbackTier t (structuredApply d0 lat lon prod irr), true)
    | _, _, _, _ => (fallbackTier t d0, true)
  | none => (fallbackTier t d0, true)

/-- `extract_solar_and_geo_data` (lines 250-393): `messages` stands for
`str(messages)`, `now` for the `datetime.now().isoformat()` read at line
255.  The text is lowercased (line 265) before any pattern is tried. -/
def extract_solar_and_geo_data (now messages : String) : SolarData :=
  (extractCore (lowerChars messages) (initRecord now)).1

/-- Whether the per-field fallback tier (lines 308-391) ran for this
transcript — the call-count instrumentation of the spec's testable
property. -/
def usedFallbackTier (now messages : String) : Bool :=
  (extractCore (lowerChars messages) (initRecord now)).2

/-- The four parses of the structured block's captures, `none` when the
block does not match: a projection of the structured tier used to state
theorems about it. -/
def formattedGroups (messages : String) :
    Option (Option ℚ × Option ℚ × Option ℚ × Option ℚ) :=
  match reSearch formattedRE (lowerChars messages) with
  | some caps =>
    some (pyFloat (grpGet caps 1), pyFloat (grpGet caps 2),
          pyFloat (grpGet caps 3), pyFloat (grpGet caps 4))
  | none => none

/-! ### Electricity cost lookup (`get_electricity_cost`, lines 67-94) -/

/-- One row of the cost reference table: the country name and the two
dated figures `CostOfElectricity_ElectricityCost_USDPerkWh_2024March` and
`CostOfElectricity_ElectricityCost_USDPerkWh_2022Sept` (either may be
missing from the JSON). -/
structure CostEntry where
  country : String
  cost_2024_march : Option ℚ
  cost_2022_sept : Option ℚ
deriving DecidableEq, Repr

/-- Lines 74-77 and 85-88: `cost_2024 if cost_2024 is not None else
cost_2022` — the newest figure when present, else the older one. -/
def preferNewest (e : CostEntry) : Option ℚ :=
  match e.cost_2024_march with
  | some c => some c
  | none => e.cost_2022_sept

/-- Whether `needle` occurs contiguously inside `hay` — Python's
`needle in hay` on strings. -/
def containsChars (needle : List Char) : List Char → Bool
  | [] => needle.isEmpty
  | c :: rest => (stripLit needle (c :: rest)).isSome || containsChars needle rest

/-- Lines 72-80: the exact-match loop — on a case-insensitive name match
return the preferred figure if the entry has one, otherwise keep
scanning. -/
def exactScan (nameLower : List Char) : List CostEntry → Option ℚ
  | [] => none
  | e :: rest =>
    if lowerChars e.country = nameLower then
      match preferNewest e with
      | some c => some c
      | none => exactScan nameLower rest
    else exactScan nameLower rest

/-- Lines 82-91: the fuzzy loop — an entry matches when either lowercased
name is a substring of the other; again an entry without a figure is
skipped. -/
def fuzzyScan (nameLower : List Char) : List CostEntry → Option ℚ
  | [] => none
  | e :: rest =>
    if containsChars nameLower (lowerChars e.country) ||
       containsChars (lowerChars e.country) nameLower then
      match preferNewest e with
      | some c => some c
      | none => fuzzyScan nameLower rest
    else fuzzyScan nameLower rest

/-- `get_electricity_cost` (lines 67-94): an empty table returns `None`
at once (line 69); otherwise the exact loop, then the fuzzy loop, then
`None`. -/
def get_electricity_cost (table : List CostEntry) (country_name : String) : Option ℚ :=
  if table = [] then none
  else
    match exactScan (lowerChars country_name) table with
    | some c => some c
    | none => fuzzyScan (lowerChars country_name) table

/-! ### Reverse geocoding and the enrichment step -/

/-- The observable outcome of the single `requests.get` call of
`get_country_from_coordinates`: a 200 response whose JSON body may or may
not carry `address.country`; a non-200 response; or a raised exception
(timeout, connection error, malformed JSON body, ...). -/
inductive GeoResponse where
  | success (addressCountry : Option String)
  | httpError (code : Nat)
  | failure
deriving DecidableEq, Repr

/-- `get_country_from_coordinates` (lines 41-65), over an oracle `geo`
standing for the network: a 200 response yields
`data.get('address', {}).get('country', '')` (so `''` when the key is
missing); a non-200 response returns `None` (line 62); any exception is
caught and returns `None` (line 65). -/
def get_country_from_coordinates (geo : ℚ → ℚ → GeoResponse) (lat lon : ℚ) : Option String :=
  match geo lat lon with
  | .success c => some (c.getD "")
  | .httpError _ => none
  | .failure => none

/-- The enrichment step of `calculate_solar_potential` (lines 226-239):
reverse geocoding runs only when both coordinates are truthy; a truthy
(non-empty) country string is stored together with its cost lookup, and
in every other case both enrichment fields are set to `None`.  The
`status` field is never touched here. -/
def enrichStep (geo : ℚ → ℚ → GeoResponse) (costs : List CostEntry)
    (result : SolarData) : SolarData :=
  if truthyQ result.latitude && truthyQ result.longitude then
    match get_country_from_coordinates geo (result.latitude.getD 0) (result.longitude.getD 0) with
    | some c =>
      if c ≠ "" then
        { result with country := some c,
                      electricity_cost_usd_kwh := get_electricity_cost costs c }
      else { result with country := none, electricity_cost_usd_kwh := none }
    | none => { result with country := none, electricity_cost_usd_kwh := none }
  else { result with country := none, electricity_cost_usd_kwh := none }

/-! ### Helper lemmas: the status recomputation -/

theorem foundItems_update_status (d : SolarData) (s : String) :
    foundItems { d with status := s } = foundItems d := rfl

theorem foundItems_le_four (d : SolarData) : foundItems d ≤ 4 := by
  unfold foundItems
  split <;> split <;> split <;> split <;> omega

/-- What `setStatus` guarantees: each of the three status strings holds
exactly for its `found_items` range. -/
theorem setStatus_spec (d : SolarData) :
    ((setStatus d).status = "completed" ↔ foundItems (setStatus d) = 4) ∧
    ((setStatus d).status = "partial" ↔
      (1 ≤ foundItems (setStatus d) ∧ foundItems (setStatus d) ≤ 3)) ∧
    ((setStatus d).status = "failed" ↔ foundItems (setStatus d) = 0) := by
  have hle := foundItems_le_four d
  have hcp : ("completed" : String) ≠ "partial" := by decide
  have hcf : ("completed" : String) ≠ "failed" := by decide
  have hpc : ("partial" : String) ≠ "completed" := by decide
  have hpf : ("partial" : String) ≠ "failed" := by decide
  have hfc : ("failed" : String) ≠ "completed" := by decide
  have hfp : ("failed" : String) ≠ "partial" := by decide
  unfold setStatus
  split
  next h =>
    refine ⟨?_, ?_, ?_⟩ <;> rw [foundItems_update_status]
    · simp [h]
    · exact ⟨fun hc => absurd hc hcp, fun hc => by omega⟩
    · exact ⟨fun hc => absurd hc hcf, fun hc => by omega⟩
  next h =>
    split
    next h0 =>
      refine ⟨?_, ?_, ?_⟩ <;> rw [foundItems_update_status]
      · exact ⟨fun hc => absurd hc hpc, fun hc => by omega⟩
      · exact ⟨fun _ => by omega, fun _ => rfl⟩
      · exact ⟨fun hc => absurd hc hpf, fun hc => by omega⟩
    next h0 =>
      refine ⟨?_, ?_, ?_⟩ <;> rw [foundItems_update_status]
      · exact ⟨fun hc => absurd hc hfc, fun hc => by omega⟩
      · exact ⟨fun hc => absurd hc hfp, fun hc => by omega⟩
      · exact ⟨fun _ => by omega, fun _ => rfl⟩

theorem truthy_foundItems (d : SolarData)
    (h : (truthyQ d.latitude && truthyQ d.longitude &&
          truthyQ d.annual_production_kwh && truthyQ d.irradiation_kwh_m2) = true) :
    foundItems d = 4 := by
  simp only [Bool.and_eq_true] at h
  unfold foundItems
  rw [h.1.1.1, h.1.1.2, h.1.2, h.2]
  rfl

/-- The record `extract_solar_and_geo_data` returns always carries a status
that agrees with the truthy-field count, whichever tier produced it. -/
theorem extractCore_status_spec (t : List Char) (d0 : SolarData) :
    (((extractCore t d0).1).status = "completed" ↔ foundItems (extractCore t d0).1 = 4) ∧
    (((extractCore t d0).1).status = "partial" ↔
      (1 ≤ foundItems (extractCore t d0).1 ∧ foundItems (extractCore t d0).1 ≤ 3)) ∧
    (((extractCore t d0).1).status = "failed" ↔ foundItems (extractCore t d0).1 = 0) := by
  unfold extractCore
  split
  · split
    · split
      next h =>
        have h4 := truthy_foundItems _ h
        have hcp : ("completed" : String) ≠ "partial" := by decide
        have hcf : ("completed" : String) ≠ "failed" := by decide
        refine ⟨?_, ?_, ?_⟩ <;> simp only [] <;> rw [foundItems_update_status]
        · simp [h4]
        · exact ⟨fun hc => absurd hc hcp, fun hc => by omega⟩
        · exact ⟨fun hc => absurd hc hcf, fun hc => by omega⟩
      next h => exact setStatus_spec _
    · exact setStatus_spec _
  · exact setStatus_spec _

/-! ### Concrete transcripts used by the counterexamples and witnesses -/

/-- A canonical terminal block whose latitude is `0.0` — inside the declared
bound `[-90, 90]` — with the other three values nonzero and in range. -/
def blockZeroLat : String :=
  "extracted data: coordinates: 0.0, 2.5 production: 5 kwh irradiation: 3 kwh/m²"

/-- A canonical terminal block with an in-range latitude `48.5` and an
out-of-range longitude `200.5`. -/
def blockBadLon : String :=
  "extracted data: coordinates: 48.5, 200.5 production: 5 kwh irradiation: 3 kwh/m²"

/-- A canonical terminal block with all four values in range and nonzero. -/
def blockGood : String :=
  "extracted data: coordinates: 48.5, 2.5 production: 5 kwh irradiation: 3 kwh/m²"

/-! ### Claim C1 -/

set_option maxRecDepth 100000 in
/-- Claim C1 is false as stated: on `blockZeroLat` all four core fields are
populated (latitude with the in-bounds value `0.0`), yet the returned status
is `"partial"`, not `"completed"` — the count behind the status is taken
over Python-truthy values, so a populated `0.0` coordinate counts as
absent. -/
theorem status_not_from_populated_count_cex :
    extract_solar_and_geo_data "" blockZeroLat =
      { timestamp := "", latitude := some 0, longitude := some (mkRat 5 2),
        annual_production_kwh := some 5, irradiation_kwh_m2 := some 3,
        country := none, electricity_cost_usd_kwh := none,
        status := "partial" } := by decide

/-- Claim C1 (amended): for every transcript the returned status is derived
solely from the number of core fields populated with a truthy (nonzero)
value — `foundItems` — as 4 → completed, 1-3 → partial, 0 → failed; a field
populated with `0.0` counts as absent in this derivation. -/
theorem status_from_truthy_count (now t : String) :
    ((extract_solar_and_geo_data now t).status = "completed" ↔
        foundItems (extract_solar_and_geo_data now t) = 4) ∧
    ((extract_solar_and_geo_data now t).status = "partial" ↔
        (1 ≤ foundItems (extract_solar_and_geo_data now t) ∧
         foundItems (extract_solar_and_geo_data now t) ≤ 3)) ∧
    ((extract_solar_and_geo_data now t).status = "failed" ↔
        foundItems (extract_solar_and_geo_data now t) = 0) :=
  extractCore_status_spec (lowerChars t) (initRecord now)

/-! ### Claim C3: how the structured tier validates the four values -/

/-- Field-by-field effect of the structured tier's bounds checks:
production and irradiation are each kept exactly when positive, while
latitude and longitude are kept exactly when the pair condition holds. -/
theorem structuredApply_fields (d : SolarData) (lat lon prod irr : ℚ) :
    ((structuredApply d lat lon prod irr).latitude =
        if -90 ≤ lat ∧ lat ≤ 90 ∧ -180 ≤ lon ∧ lon ≤ 180 then some lat else d.latitude) ∧
    ((structuredApply d lat lon prod irr).longitude =
        if -90 ≤ lat ∧ lat ≤ 90 ∧ -180 ≤ lon ∧ lon ≤ 180 then some lon else d.longitude) ∧
    ((structuredApply d lat lon prod irr).annual_production_kwh =
        if prod > 0 then some prod else d.annual_production_kwh) ∧
    ((structuredApply d lat lon prod irr).irradiation_kwh_m2 =
        if irr > 0 then some irr else d.irradiation_kwh_m2) ∧
    (structuredApply d lat lon prod irr).timestamp = d.timestamp ∧
    (structuredApply d lat lon prod irr).country = d.country ∧
    (structuredApply d lat lon prod irr).electricity_cost_usd_kwh =
      d.electricity_cost_usd_kwh ∧
    (structuredApply d lat lon prod irr).status = d.status := by
  unfold structuredApply
  split <;> split <;> split <;> simp_all

set_option maxRecDepth 100000 in
/-- Claim C3 is false as stated: on `blockBadLon` the structured block
matches, latitude `48.5` is in range and longitude `200.5` is not, yet the
resulting record has `latitude = none` — the out-of-range longitude drags
the in-range latitude down with it, while production and irradiation are
still kept. -/
theorem pair_validation_drops_latitude_cex :
    formattedGroups blockBadLon =
      some (some (mkRat 97 2), some (mkRat 401 2), some 5, some 3) ∧
    extract_solar_and_geo_data "" blockBadLon =
      { timestamp := "", latitude := none, longitude := none,
        annual_production_kwh := some 5, irradiation_kwh_m2 := some 3,
        country := none, electricity_cost_usd_kwh := none,
        status := "partial" } := by decide

/-- Claim C3 (amended): when the structured block matches, production and
irradiation are validated individually — either failing its bound is
dropped on its own — but latitude and longitude are validated as a pair:
both are kept when the pair condition holds and both are dropped otherwise,
so an out-of-range longitude drops an in-range latitude from the same
block. -/
theorem coordinate_pair_validation (d : SolarData) (lat lon prod irr : ℚ) :
    ((structuredApply d lat lon prod irr).annual_production_kwh =
        if prod > 0 then some prod else d.annual_production_kwh) ∧
    ((structuredApply d lat lon prod irr).irradiation_kwh_m2 =
        if irr > 0 then some irr else d.irradiation_kwh_m2) ∧
    ((structuredApply d lat lon prod irr).latitude =
        if -90 ≤ lat ∧ lat ≤ 90 ∧ -180 ≤ lon ∧ lon ≤ 180 then some lat else d.latitude) ∧
    ((structuredApply d lat lon prod irr).longitude =
        if -90 ≤ lat ∧ lat ≤ 90 ∧ -180 ≤ lon ∧ lon ≤ 180 then some lon else d.longitude) :=
  ⟨(structuredApply_fields d lat lon prod irr).2.2.1,
   (structuredApply_fields d lat lon prod irr).2.2.2.1,
   (structuredApply_fields d lat lon prod irr).1,
   (structuredApply_fields d lat lon prod irr).2.1⟩

/-! ### Claim C10 -/

set_option maxRecDepth 100000 in
/-- Claim C10: on the transcript `"1367 kWh/m²"`, which mentions only an
irradiation value and no production at all, the loose `number kwh` fallback
pattern matches inside the irradiation text and the extractor reports the
same value as the annual production. -/
theorem loose_kwh_pattern_captures_irradiation :
    extract_solar_and_geo_data "" "1367 kWh/m²" =
      { timestamp := "", latitude := none, longitude := none,
        annual_production_kwh := some 1367, irradiation_kwh_m2 := some 1367,
        country := none, electricity_cost_usd_kwh := none,
        status := "partial" } := by decide

/-! ### Claim C2 -/

theorem truthyQ_some_iff (v : ℚ) : truthyQ (some v) = true ↔ v ≠ 0 := by
  simp [truthyQ]

set_option maxRecDepth 100000 in
/-- Claim C2 is false as stated: `blockZeroLat` is a canonical terminal
block whose four values all lie within their declared bounds (latitude
`0.0 ∈ [-90, 90]`), yet extraction does not short-circuit with
`"completed"` — the per-field fallback tier runs and the status ends up
`"partial"`. -/
theorem structured_zero_lat_no_short_circuit_cex :
    formattedGroups blockZeroLat = some (some 0, some (mkRat 5 2), some 5, some 3) ∧
    usedFallbackTier "" blockZeroLat = true ∧
    (extract_solar_and_geo_data "" blockZeroLat).status = "partial" := by decide

/-- Claim C2 (amended): for every transcript whose canonical terminal block
parses to four values that are within their declared bounds and whose two
coordinates are moreover nonzero, the structured tier alone yields status
`"completed"` and the per-field fallback tier never runs. -/
theorem structured_block_short_circuit (now t : String) (lat lon prod irr : ℚ)
    (h : formattedGroups t = some (some lat, some lon, some prod, some irr))
    (hb : -90 ≤ lat ∧ lat ≤ 90 ∧ -180 ≤ lon ∧ lon ≤ 180)
    (hlat : lat ≠ 0) (hlon : lon ≠ 0) (hprod : prod > 0) (hirr : irr > 0) :
    (extract_solar_and_geo_data now t).status = "completed" ∧
    usedFallbackTier now t = false := by
  unfold formattedGroups at h
  have hla : (structuredApply (initRecord now) lat lon prod irr).latitude = some lat := by
    rw [(structuredApply_fields _ lat lon prod irr).1, if_pos hb]
  have hlo : (structuredApply (initRecord now) lat lon prod irr).longitude = some lon := by
    rw [(structuredApply_fields _ lat lon prod irr).2.1, if_pos hb]
  have hpr : (structuredApply (initRecord now) lat lon prod irr).annual_production_kwh
      = some prod := by
    rw [(structuredApply_fields _ lat lon prod irr).2.2.1, if_pos hprod]
  have hir : (structuredApply (initRecord now) lat lon prod irr).irradiation_kwh_m2
      = some irr := by
    rw [(structuredApply_fields _ lat lon prod irr).2.2.2.1, if_pos hirr]
  have hcond : (truthyQ (structuredApply (initRecord now) lat lon prod irr).latitude &&
      truthyQ (structuredApply (initRecord now) lat lon prod irr).longitude &&
      truthyQ (structuredApply (initRecord now) lat lon prod irr).annual_production_kwh &&
      truthyQ (structuredApply (initRecord now) lat lon prod irr).irradiation_kwh_m2) = true := by
    rw [hla, hlo, hpr, hir]
    simp [truthyQ, hlat, hlon, ne_of_gt hprod, ne_of_gt hirr]
  cases hr : reSearch formattedRE (lowerChars t) with
  | none => rw [hr] at h; exact absurd h (by simp)
  | some caps =>
    rw [hr] at h
    simp only [Option.some.injEq, Prod.mk.injEq] at h
    obtain ⟨h1, h2, h3, h4⟩ := h
    simp only [extract_solar_and_geo_data, usedFallbackTier, extractCore, hr,
      h1, h2, h3, h4, hcond, if_true]
    exact ⟨trivial, trivial⟩

set_option maxRecDepth 100000 in
/-- Claim C2 (amended) holds at the concrete block `blockGood`
(48.5, 2.5, 5, 3): status `"completed"` and the fallback tier skipped. -/
theorem structured_block_short_circuit_witness :
    (extract_solar_and_geo_data "" blockGood).status = "completed" ∧
    usedFallbackTier "" blockGood = false :=
  structured_block_short_circuit "" blockGood (mkRat 97 2) (mkRat 5 2) 5 3
    (by decide) (by decide) (by decide) (by decide) (by decide) (by decide)

/-! ### Claim C4 -/

theorem exactScan_all_figureless (nameLower : List Char) (table : List CostEntry)
    (h : ∀ e ∈ table, e.cost_2024_march = none ∧ e.cost_2022_sept = none) :
    exactScan nameLower table = none := by
  induction table with
  | nil => rfl
  | cons e rest ih =>
    have he := h e (List.mem_cons_self e rest)
    have hp : preferNewest e = none := by
      unfold preferNewest; rw [he.1, he.2]
    unfold exactScan
    rw [hp]
    split <;> exact ih fun x hx => h x (List.mem_cons_of_mem e hx)

theorem fuzzyScan_all_figureless (nameLower : List Char) (table : List CostEntry)
    (h : ∀ e ∈ table, e.cost_2024_march = none ∧ e.cost_2022_sept = none) :
    fuzzyScan nameLower table = none := by
  induction table with
  | nil => rfl
  | cons e rest ih =>
    have he := h e (List.mem_cons_self e rest)
    have hp : preferNewest e = none := by
      unfold preferNewest; rw [he.1, he.2]
    unfold fuzzyScan
    rw [hp]
    split <;> exact ih fun x hx => h x (List.mem_cons_of_mem e hx)

set_option maxRecDepth 10000 in
/-- Claim C4 is false as stated: the query "Niger" matches the entry
"Niger" exactly, that entry carries neither the 2024 nor the 2022 figure,
and yet the lookup does not return absent — the figureless entry is
skipped, the fuzzy phase runs, "niger" is a substring of "nigeria", and
the cost of the entry "Nigeria" is returned. -/
theorem matched_entry_without_figures_cex :
    get_electricity_cost
      [⟨"Niger", none, none⟩, ⟨"Nigeria", some (mkRat 1 20), none⟩] "Niger" =
      some (mkRat 1 20) := by decide

/-- Claim C4 (amended): on a matched entry the value selected is the 2024
figure when present, else the 2022 figure; but an entry carrying neither
figure is skipped rather than answered with absent — the scan continues
through the remaining exact matches and then the whole fuzzy substring
phase, so the lookup returns absent when no entry of the table carries any
figure (first conjunct), while an exactly-matching entry whose 2024 figure
is present immediately returns that figure whatever its 2022 field holds
(second conjunct). -/
theorem cost_lookup_skips_figureless (table : List CostEntry) (name : String)
    (h : ∀ e ∈ table, e.cost_2024_march = none ∧ e.cost_2022_sept = none) :
    get_electricity_cost table name = none ∧
    ∀ (cn : String) (a : ℚ) (b : Option ℚ) (rest : List CostEntry),
      lowerChars cn = lowerChars name →
      get_electricity_cost (⟨cn, some a, b⟩ :: rest) name = some a := by
  constructor
  · unfold get_electricity_cost
    split
    · rfl
    · rw [exactScan_all_figureless _ _ h, fuzzyScan_all_figureless _ _ h]
  · intro cn a b rest hm
    unfold get_electricity_cost
    split
    next hemp => exact absurd hemp (by simp)
    next =>
      unfold exactScan
      rw [if_pos hm]
      rfl

set_option maxRecDepth 10000 in
/-- Claim C4 (amended) at concrete inputs: a one-entry figureless table
answers absent, and an exactly-matching head entry with a 2024 figure
answers that figure. -/
theorem cost_lookup_skips_figureless_witness :
    get_electricity_cost [⟨"Niger", none, none⟩] "Niger" = none ∧
    get_electricity_cost [⟨"NIGER", some (mkRat 1 4), some (mkRat 1 5)⟩] "Niger" =
      some (mkRat 1 4) :=
  ⟨(cost_lookup_skips_figureless [⟨"Niger", none, none⟩] "Niger" (by decide)).1,
   (cost_lookup_skips_figureless [⟨"Niger", none, none⟩] "Niger" (by decide)).2
     "NIGER" (mkRat 1 4) (some (mkRat 1 5)) [] (by decide)⟩

/-! ### Claim C5 -/

set_option maxRecDepth 10000 in
/-- Claim C5 is false as stated: with no exact match available, the query
"USA" does not fuzzy-match the entry "United States of America" — "usa" is
not a contiguous substring of "united states of america" nor conversely —
so the lookup returns absent instead of that entry's cost. -/
theorem usa_substring_cex :
    get_electricity_cost
      [⟨"United States of America", some (mkRat 21 125), none⟩] "USA" = none := by
  decide

/-- Claim C5 (amended): the fuzzy fallback fires only when one lowercased
name occurs contiguously inside the other.  Against a table holding only
"United States of America", the query "USA" finds no exact and no fuzzy
match and the lookup returns absent whatever the entry's figures are; a
query that is a genuine substring, "United States", does match that entry
and returns its 2024 figure. -/
theorem usa_fuzzy_no_substring_match (q : ℚ) (b : Option ℚ) :
    get_electricity_cost [⟨"United States of America", some q, b⟩] "USA" = none ∧
    get_electricity_cost [⟨"United States of America", some q, b⟩] "United States" =
      some q :=
  ⟨rfl, rfl⟩

/-! ### Claim C6: the bounds invariant of every returned record -/

/-- The record invariant: every present coordinate lies in its interval and
every present production/irradiation value is positive. -/
def inBounds (d : SolarData) : Prop :=
  (∀ v, d.latitude = some v → -90 ≤ v ∧ v ≤ 90) ∧
  (∀ v, d.longitude = some v → -180 ≤ v ∧ v ≤ 180) ∧
  (∀ v, d.annual_production_kwh = some v → v > 0) ∧
  (∀ v, d.irradiation_kwh_m2 = some v → v > 0)

theorem initRecord_inBounds (now : String) : inBounds (initRecord now) := by
  refine ⟨?_, ?_, ?_, ?_⟩ <;> intro v hv <;> exact absurd hv (by simp [initRecord])

theorem structuredApply_inBounds (d : SolarData) (lat lon prod irr : ℚ)
    (hd : inBounds d) : inBounds (structuredApply d lat lon prod irr) := by
  obtain ⟨f1, f2, f3, f4, _⟩ := structuredApply_fields d lat lon prod irr
  refine ⟨?_, ?_, ?_, ?_⟩ <;> intro v hv
  · rw [f1] at hv
    split at hv
    next hb => cases hv; exact ⟨hb.1, hb.2.1⟩
    next => exact hd.1 v hv
  · rw [f2] at hv
    split at hv
    next hb => cases hv; exact ⟨hb.2.2.1, hb.2.2.2⟩
    next => exact hd.2.1 v hv
  · rw [f3] at hv
    split at hv
    next hp => cases hv; exact hp
    next => exact hd.2.2.1 v hv
  · rw [f4] at hv
    split at hv
    next hi => cases hv; exact hi
    next => exact hd.2.2.2 v hv

theorem coordInner_inBounds (d : SolarData) (ms : List (List Char × List Char))
    (hd : inBounds d) : inBounds (coordInner d ms) := by
  induction ms generalizing d with
  | nil => exact hd
  | cons m rest ih =>
    obtain ⟨a, b⟩ := m
    unfold coordInner
    split
    next lat lon _ _ =>
      split
      next hb =>
        exact ⟨fun v hv => by cases hv; exact ⟨hb.1, hb.2.1⟩,
               fun v hv => by cases hv; exact ⟨hb.2.2.1, hb.2.2.2⟩,
               hd.2.2.1, hd.2.2.2⟩
      next => exact ih d hd
    next => exact ih d hd

theorem coordLoop_inBounds (t : List Char) (d : SolarData) (ps : List RE)
    (hd : inBounds d) : inBounds (coordLoop t d ps) := by
  induction ps generalizing d with
  | nil => exact hd
  | cons p rest ih =>
    simp only [coordLoop]
    split
    next => exact coordInner_inBounds d _ hd
    next => exact ih _ (coordInner_inBounds d _ hd)

theorem prodInner_inBounds (d : SolarData) (ms : List (List Char))
    (hd : inBounds d) : inBounds (prodInner d ms) := by
  induction ms generalizing d with
  | nil => exact hd
  | cons m rest ih =>
    unfold prodInner
    split
    next v _ =>
      split
      next hp => exact ⟨hd.1, hd.2.1, fun w hw => by cases hw; exact hp, hd.2.2.2⟩
      next => exact ih d hd
    next => exact ih d hd

theorem prodLoop_inBounds (t : List Char) (d : SolarData) (ps : List RE)
    (hd : inBounds d) : inBounds (prodLoop t d ps) := by
  induction ps generalizing d with
  | nil => exact hd
  | cons p rest ih =>
    simp only [prodLoop]
    split
    next => exact prodInner_inBounds d _ hd
    next => exact ih _ (prodInner_inBounds d _ hd)

theorem irrInner_inBounds (d : SolarData) (ms : List (List Char))
    (hd : inBounds d) : inBounds (irrInner d ms) := by
  induction ms generalizing d with
  | nil => exact hd
  | cons m rest ih =>
    unfold irrInner
    split
    next v _ =>
      split
      next hp => exact ⟨hd.1, hd.2.1, hd.2.2.1, fun w hw => by cases hw; exact hp⟩
      next => exact ih d hd
    next => exact ih d hd

theorem irrLoop_inBounds (t : List Char) (d : SolarData) (ps : List RE)
    (hd : inBounds d) : inBounds (irrLoop t d ps) := by
  induction ps generalizing d with
  | nil => exact hd
  | cons p rest ih =>
    simp only [irrLoop]
    split
    next => exact irrInner_inBounds d _ hd
    next => exact ih _ (irrInner_inBounds d _ hd)

theorem setStatus_inBounds (d : SolarData) (hd : inBounds d) :
    inBounds (setStatus d) := by
  unfold setStatus
  split
  · exact hd
  · split
    · exact hd
    · exact hd

theorem fallbackTier_inBounds (t : List Char) (d : SolarData) (hd : inBounds d) :
    inBounds (fallbackTier t d) :=
  setStatus_inBounds _ (irrLoop_inBounds t _ _ (prodLoop_inBounds t _ _
    (coordLoop_inBounds t d _ hd)))

theorem extractCore_inBounds (t : List Char) (d0 : SolarData) (hd : inBounds d0) :
    inBounds (extractCore t d0).1 := by
  unfold extractCore
  split
  · split
    · split
      next => exact structuredApply_inBounds _ _ _ _ _ hd
      next => exact fallbackTier_inBounds _ _ (structuredApply_inBounds _ _ _ _ _ hd)
    · exact fallbackTier_inBounds _ _ hd
  · exact fallbackTier_inBounds _ _ hd

/-- Claim C6: in every record extraction returns, a present latitude lies
in `[-90, 90]`, a present longitude in `[-180, 180]`, and present
production and irradiation values are strictly positive — an out-of-bounds
numeric value never populates its field, whatever the transcript says. -/
theorem extraction_bounds_invariant (now t : String) :
    (∀ v, (extract_solar_and_geo_data now t).latitude = some v → -90 ≤ v ∧ v ≤ 90) ∧
    (∀ v, (extract_solar_and_geo_data now t).longitude = some v → -180 ≤ v ∧ v ≤ 180) ∧
    (∀ v, (extract_solar_and_geo_data now t).annual_production_kwh = some v → v > 0) ∧
    (∀ v, (extract_solar_and_geo_data now t).irradiation_kwh_m2 = some v → v > 0) :=
  extractCore_inBounds (lowerChars t) (initRecord now) (initRecord_inBounds now)

/-! ### Claim C7 -/

/-- Claim C7: for every failing reverse-geocoding outcome — a non-success
HTTP response, or the exception path that covers timeout, connection
failure and a malformed body — country resolution yields `None` (the model
is total, so no exception escapes), and the enrichment step leaves the
record's status untouched, so status keeps reflecting only the four
primary extraction fields. -/
theorem geocoding_failure_absorbed (geo : ℚ → ℚ → GeoResponse) (lat lon : ℚ)
    (h : ∀ c, geo lat lon ≠ GeoResponse.success c)
    (costs : List CostEntry) (r : SolarData) :
    get_country_from_coordinates geo lat lon = none ∧
    (enrichStep geo costs r).status = r.status := by
  constructor
  · unfold get_country_from_coordinates
    cases hg : geo lat lon with
    | success c => exact absurd hg (h c)
    | httpError code => rfl
    | failure => rfl
  · unfold enrichStep
    split
    · split
      · split <;> rfl
      · rfl
    · rfl

/-- Claim C7 at a concrete failing outcome: the exception path, an empty
cost table and a fresh record. -/
theorem geocoding_failure_absorbed_witness :
    get_country_from_coordinates (fun _ _ => GeoResponse.failure) 1 2 = none ∧
    (enrichStep (fun _ _ => GeoResponse.failure) [] (initRecord "t")).status =
      (initRecord "t").status :=
  geocoding_failure_absorbed (fun _ _ => GeoResponse.failure) 1 2
    (fun _ hc => GeoResponse.noConfusion hc) [] (initRecord "t")

/-! ### Claim C9 -/

/-- Claim C9: a coordinate whose extracted value is exactly `0.0` — a value
inside the declared bounds — is treated as absent everywhere it is
consumed: it is not counted by the status computation (first two
conjuncts), it prevents the structured tier from short-circuiting, forcing
the fallback tier to run (third conjunct), and it prevents country
enrichment, leaving country and cost absent (fourth conjunct). -/
theorem zero_coordinate_treated_absent :
    (∀ d : SolarData, d.latitude = some 0 →
        foundItems d = foundItems { d with latitude := none }) ∧
    (∀ d : SolarData, d.longitude = some 0 →
        foundItems d = foundItems { d with longitude := none }) ∧
    (∀ (now t : String) (lat lon prod irr : ℚ),
        formattedGroups t = some (some lat, some lon, some prod, some irr) →
        (lat = 0 ∨ lon = 0) → usedFallbackTier now t = true) ∧
    (∀ (geo : ℚ → ℚ → GeoResponse) (costs : List CostEntry) (d : SolarData),
        (d.latitude = some 0 ∨ d.longitude = some 0) →
        (enrichStep geo costs d).country = none ∧
        (enrichStep geo costs d).electricity_cost_usd_kwh = none) := by
  refine ⟨?_, ?_, ?_, ?_⟩
  · intro d h
    unfold foundItems
    rw [h]
    rfl
  · intro d h
    unfold foundItems
    rw [h]
    rfl
  · intro now t lat lon prod irr h hz
    unfold formattedGroups at h
    cases hr : reSearch formattedRE (lowerChars t) with
    | none => rw [hr] at h; exact absurd h (by simp)
    | some caps =>
      rw [hr] at h
      simp only [Option.some.injEq, Prod.mk.injEq] at h
      obtain ⟨h1, h2, h3, h4⟩ := h
      have hfalse : (truthyQ (structuredApply (initRecord now) lat lon prod irr).latitude &&
          truthyQ (structuredApply (initRecord now) lat lon prod irr).longitude &&
          truthyQ (structuredApply (initRecord now) lat lon prod irr).annual_production_kwh &&
          truthyQ (structuredApply (initRecord now) lat lon prod irr).irradiation_kwh_m2)
          = false := by
        rcases hz with hz | hz
        · have hl : truthyQ (structuredApply (initRecord now) lat lon prod irr).latitude
              = false := by
            rw [(structuredApply_fields _ lat lon prod irr).1]
            split
            · rw [hz]; rfl
            · rfl
          simp [hl]
        · have hl : truthyQ (structuredApply (initRecord now) lat lon prod irr).longitude
              = false := by
            rw [(structuredApply_fields _ lat lon prod irr).2.1]
            split
            · rw [hz]; rfl
            · rfl
          simp [hl]
      simp only [usedFallbackTier, extractCore, hr, h1, h2, h3, h4, hfalse,
        Bool.false_eq_true, if_false]
  · intro geo costs d hz
    have hguard : (truthyQ d.latitude && truthyQ d.longitude) = false := by
      rcases hz with hz | hz
      · rw [hz]; rfl
      · rw [hz]; simp [truthyQ]
    unfold enrichStep
    rw [hguard]
    exact ⟨rfl, rfl⟩

set_option maxRecDepth 100000 in
/-- Claim C9 at concrete inputs: the zero-latitude block forces the
fallback tier to run, and a record with latitude `0.0` gets no country from
enrichment. -/
theorem zero_coordinate_treated_absent_witness :
    usedFallbackTier "" blockZeroLat = true ∧
    (enrichStep (fun _ _ => GeoResponse.failure) []
      { timestamp := "", latitude := some 0, longitude := some 1,
        annual_production_kwh := some 5, irradiation_kwh_m2 := some 3,
        country := none, electricity_cost_usd_kwh := none,
        status := "partial" }).country = none :=
  ⟨zero_coordinate_treated_absent.2.2.1 "" blockZeroLat 0 (mkRat 5 2) 5 3
      (by decide) (Or.inl rfl),
   (zero_coordinate_treated_absent.2.2.2 (fun _ _ => GeoResponse.failure) [] _
      (Or.inl rfl)).1⟩

/-! ### Claim C8: determinism of extraction, modulo the timestamp -/

theorem update_ts_latitude (d : SolarData) (x : String) :
    ({ d with timestamp := x } : SolarData).latitude = d.latitude := rfl

theorem update_ts_longitude (d : SolarData) (x : String) :
    ({ d with timestamp := x } : SolarData).longitude = d.longitude := rfl

theorem update_ts_production (d : SolarData) (x : String) :
    ({ d with timestamp := x } : SolarData).annual_production_kwh =
      d.annual_production_kwh := rfl

theorem update_ts_irradiation (d : SolarData) (x : String) :
    ({ d with timestamp := x } : SolarData).irradiation_kwh_m2 =
      d.irradiation_kwh_m2 := rfl

theorem structuredApply_timestamp (d : SolarData) (x : String) (lat lon prod irr : ℚ) :
    structuredApply { d with timestamp := x } lat lon prod irr =
      { structuredApply d lat lon prod irr with timestamp := x } := by
  unfold structuredApply
  split <;> split <;> split <;> rfl

theorem coordInner_timestamp (ms : List (List Char × List Char)) (d : SolarData)
    (x : String) :
    coordInner { d with timestamp := x } ms = { coordInner d ms with timestamp := x } := by
  induction ms generalizing d with
  | nil => rfl
  | cons m rest ih =>
    obtain ⟨a, b⟩ := m
    unfold coordInner
    split
    next =>
      split
      next => rfl
      next => exact ih d
    next => exact ih d

theorem coordLoop_timestamp (ps : List RE) (t : List Char) (d : SolarData)
    (x : String) :
    coordLoop t { d with timestamp := x } ps =
      { coordLoop t d ps with timestamp := x } := by
  induction ps generalizing d with
  | nil => rfl
  | cons p rest ih =>
    simp only [coordLoop, coordInner_timestamp, update_ts_latitude]
    split
    next => rfl
    next => exact ih _

theorem prodInner_timestamp (ms : List (List Char)) (d : SolarData) (x : String) :
    prodInner { d with timestamp := x } ms = { prodInner d ms with timestamp := x } := by
  induction ms generalizing d with
  | nil => rfl
  | cons m rest ih =>
    unfold prodInner
    split
    next =>
      split
      next => rfl
      next => exact ih d
    next => exact ih d

theorem prodLoop_timestamp (ps : List RE) (t : List Char) (d : SolarData)
    (x : String) :
    prodLoop t { d with timestamp := x } ps =
      { prodLoop t d ps with timestamp := x } := by
  induction ps generalizing d with
  | nil => rfl
  | cons p rest ih =>
    simp only [prodLoop, prodInner_timestamp, update_ts_production]
    split
    next => rfl
    next => exact ih _

theorem irrInner_timestamp (ms : List (List Char)) (d : SolarData) (x : String) :
    irrInner { d with timestamp := x } ms = { irrInner d ms with timestamp := x } := by
  induction ms generalizing d with
  | nil => rfl
  | cons m rest ih =>
    unfold irrInner
    split
    next =>
      split
      next => rfl
      next => exact ih d
    next => exact ih d

theorem irrLoop_timestamp (ps : List RE) (t : List Char) (d : SolarData)
    (x : String) :
    irrLoop t { d with timestamp := x } ps =
      { irrLoop t d ps with timestamp := x } := by
  induction ps generalizing d with
  | nil => rfl
  | cons p rest ih =>
    simp only [irrLoop, irrInner_timestamp, update_ts_irradiation]
    split
    next => rfl
    next => exact ih _

theorem setStatus_timestamp (d : SolarData) (x : String) :
    setStatus { d with timestamp := x } = { setStatus d with timestamp := x } := by
  unfold setStatus
  rw [show foundItems { d with timestamp := x } = foundItems d from rfl]
  split
  next => rfl
  next => split <;> rfl

theorem fallbackTier_timestamp (t : List Char) (d : SolarData) (x : String) :
    fallbackTier t { d with timestamp := x } =
      { fallbackTier t d with timestamp := x } := by
  unfold fallbackTier
  rw [coordLoop_timestamp, prodLoop_timestamp, irrLoop_timestamp, setStatus_timestamp]

theorem extractCore_timestamp (t : List Char) (d0 : SolarData) (x : String) :
    extractCore t { d0 with timestamp := x } =
      ({ (extractCore t d0).1 with timestamp := x }, (extractCore t d0).2) := by
  unfold extractCore
  split
  · split
    · simp only [structuredApply_timestamp, update_ts_latitude, update_ts_longitude,
        update_ts_production, update_ts_irradiation]
      split
      next => rfl
      next => rw [fallbackTier_timestamp]
    · rw [fallbackTier_timestamp]
  · rw [fallbackTier_timestamp]

set_option maxRecDepth 10000 in
/-- Claim C8 is false as stated: the record stores the clock reading in its
`timestamp` field (line 255), so two runs on the same transcript at
different instants return records that are not equal. -/
theorem extraction_timestamp_cex :
    extract_solar_and_geo_data "2025-01-01T00:00:00" "" ≠
      extract_solar_and_geo_data "2025-01-02T00:00:00" "" := by decide

/-- Claim C8 (amended): the extraction orchestrator makes no retries and no
external calls (its only inputs are the transcript text and the clock
reading), and apart from the `timestamp` field — which is exactly the clock
reading taken at creation — the returned record is a deterministic function
of the transcript text alone: two runs under different clock readings agree
on every other field. -/
theorem extraction_deterministic_modulo_timestamp (now1 now2 t : String) :
    extract_solar_and_geo_data now1 t =
      { extract_solar_and_geo_data now2 t with timestamp := now1 } ∧
    (extract_solar_and_geo_data now1 t).timestamp = now1 := by
  have h : initRecord now1 = { initRecord now2 with timestamp := now1 } := rfl
  constructor
  · unfold extract_solar_and_geo_data
    rw [h, extractCore_timestamp]
  · unfold extract_solar_and_geo_data
    rw [h, extractCore_timestamp]
